import Mathlib

/-!
Verification of the CrypChat peer-to-peer chat node against its
natural-language specification.  The definitions below are a shallow
embedding of the TypeScript sources:

* `CryptoClient` embeds `src/CryptoClient.ts`,
* `SocketHandler.dispatch` and the surrounding pipeline embed the
  `onMessage` / `send` logic of `src/SocketHandler.ts`,
* `PeerManager` embeds the registry and gossip controller.

Node library primitives (Diffie-Hellman, AES-GCM, SHA-256, RSA signature
checking, random IVs) are not part of the repository; they are modelled as
abstract executable fields of `CryptoPrims`, while their error behaviour
(which call throws, on what shape of input) follows Node's documented
semantics and is written out explicitly where a claim depends on it.
JavaScript values that may be `undefined` are modelled with `Option` or
with the small dynamic-value type `JSVal`.
-/

namespace CrypChat

/-- A Node `Buffer`: a list of byte values. -/
abbrev Buffer := List Nat

/-- A dynamically typed JavaScript value, as far as the protocol needs:
`undefined`, `null`, booleans, numbers, strings and the structured
`encObj e i t` object returned by `CryptoClient.encrypt`
(`\x7b encrypted, iv, tag \x7d`). -/
inductive JSVal where
  | undef : JSVal
  | jnull : JSVal
  | jbool : Bool → JSVal
  | jnum : Int → JSVal
  | jstr : String → JSVal
  | encObj : String → String → String → JSVal
deriving DecidableEq, Repr

/-- JavaScript truthiness of an optional string (`undefined` and the empty
string are falsy). -/
def truthyStr : Option String → Bool
  | none => false
  | some s => s ≠ ""

/-- Value of a hexadecimal digit character, `none` when the character is
not a hex digit. -/
def hexDigitVal (ch : Char) : Option Nat :=
  if '0' ≤ ch ∧ ch ≤ '9' then some (ch.toNat - '0'.toNat)
  else if 'a' ≤ ch ∧ ch ≤ 'f' then some (ch.toNat - 'a'.toNat + 10)
  else if 'A' ≤ ch ∧ ch ≤ 'F' then some (ch.toNat - 'A'.toNat + 10)
  else none

/-- Hex decoding of a character list, Node style: `Buffer.from(s, "hex")`
decodes the longest valid prefix of full hex-digit pairs and never throws
on a string argument. -/
def hexDecodeChars : List Char → Buffer
  | c1 :: c2 :: rest =>
    match hexDigitVal c1, hexDigitVal c2 with
    | some a, some b => (16 * a + b) :: hexDecodeChars rest
    | _, _ => []
  | _ => []

/-- `Buffer.from(s, "hex")` for a string argument. -/
def bufferFromHex (s : String) : Buffer := hexDecodeChars s.toList

/-- Hex digit character for a value below 16. -/
def hexDigitChar (n : Nat) : Char :=
  if n < 10 then Char.ofNat ('0'.toNat + n) else Char.ofNat ('a'.toNat + (n - 10))

/-- `buf.toString("hex")`. -/
def bufferToHex (b : Buffer) : String :=
  String.mk (b.foldr (fun byte acc => hexDigitChar (byte % 256 / 16) :: hexDigitChar (byte % 16) :: acc) [])

/-- `Buffer.from(s)` for a string: its byte content (code points, a
faithful rendering for the ASCII protocol strings involved). -/
def strToBytes (s : String) : Buffer := s.toList.map Char.toNat

/-- `buf.toString()`: back from bytes to a string. -/
def bytesToStr (b : Buffer) : String := String.mk (b.map Char.ofNat)

/-- `Buffer.from(v, "hex")` on a dynamic value: strings decode (never
throwing), while `undefined`, `null`, numbers, booleans and plain objects
make Node throw `ERR_INVALID_ARG_TYPE`. -/
def bufferFromHexVal : JSVal → Except String Buffer
  | JSVal.jstr s => Except.ok (bufferFromHex s)
  | _ => Except.error "TypeError ERR_INVALID_ARG_TYPE"

/-- Association-list lookup keyed by strings; embeds `Map.get`/`Map.has`. -/
def lookupKey {α : Type} (k : String) : List (String × α) → Option α
  | [] => none
  | (k', v) :: t => if k' = k then some v else lookupKey k t

/-- `Map.set`: overwrite the binding in place when the key is present,
append otherwise. -/
def setKey {α : Type} (k : String) (v : α) : List (String × α) → List (String × α)
  | [] => [(k, v)]
  | (k', v') :: t => if k' = k then (k, v) :: t else (k', v') :: setKey k v t

/-- `Map.delete`: drop every binding of the key. -/
def eraseKey {α : Type} (k : String) (l : List (String × α)) : List (String × α) :=
  l.filter (fun p => p.1 ≠ k)

/-- Modelled from the spec: the file `types/EWSState.ts` is not among the
sources; per §3 the states are CREATED, HANDSHAKE_STARTED,
HANDSHAKE_VALIDATED, READY, CLOSED with monotonically increasing numeric
enum values (TypeScript enums number members 0, 1, 2, ...). -/
inductive EWSState where
  | CREATED : EWSState
  | HANDSHAKE_STARTED : EWSState
  | HANDSHAKE_VALIDATED : EWSState
  | READY : EWSState
  | CLOSED : EWSState
deriving DecidableEq, Repr

/-- Numeric value of a state, per the TypeScript enum. -/
def EWSState.toNat : EWSState → Nat
  | .CREATED => 0
  | .HANDSHAKE_STARTED => 1
  | .HANDSHAKE_VALIDATED => 2
  | .READY => 3
  | .CLOSED => 4

/-- Modelled from the spec: the file `types/EWSCommand.ts` is not among the
sources; per §6 the commands are HANDSHAKE, HANDSHAKE_VERIFICATION,
HANDSHAKE_ACK, GET_PEERS, GET_PEERS_RESPONSE, ANNOUNCE_PEER, SEND_MESSAGE
(stable small integers). -/
inductive EWSCommand where
  | HANDSHAKE : EWSCommand
  | HANDSHAKE_VERIFICATION : EWSCommand
  | HANDSHAKE_ACK : EWSCommand
  | GET_PEERS : EWSCommand
  | GET_PEERS_RESPONSE : EWSCommand
  | ANNOUNCE_PEER : EWSCommand
  | SEND_MESSAGE : EWSCommand
deriving DecidableEq, Repr

/-- The PEM header bytes `-----BEGIN`; Node key parsing requires a
well-formed PEM (or DER) encoding and throws otherwise. -/
def pemHeaderBytes : Buffer := strToBytes "-----BEGIN"

/-- A buffer that Node `crypto.createPublicKey` accepts as a key: it must
carry a PEM header (the DER alternative is irrelevant to this code base,
which only ever passes PEM text or attacker-supplied strings). -/
def keyWellFormed (pk : Buffer) : Bool :=
  pk.take pemHeaderBytes.length = pemHeaderBytes

/-- The external cryptographic primitives used by `CryptoClient`
(Node `crypto`): they are abstract executable functions here, since their
mathematical content is outside the repository.  Failure behaviour that the
repository relies on is part of the interface types. -/
structure CryptoPrims where
  /-- `DiffieHellman.computeSecret`; throws on an invalid peer public key. -/
  dhComputeSecret : Buffer → Except String Buffer
  /-- `createHash("sha256").update(b).digest()`. -/
  sha256 : Buffer → Buffer
  /-- AES-256-GCM encryption: key, iv, plaintext to hex ciphertext. -/
  aeadEncrypt : Buffer → Buffer → String → String
  /-- AES-256-GCM authentication tag for the same computation. -/
  aeadTag : Buffer → Buffer → String → String
  /-- AES-256-GCM decryption: key, iv, tag, hex ciphertext; throws when
  the tag does not authenticate. -/
  aeadDecrypt : Buffer → Buffer → Buffer → String → Except String String
  /-- `Crypto.randomBytes(16)` as used by `generateIV` (one oracle value;
  freshness is outside the shallow embedding). -/
  randomIV : Buffer
  /-- Whether an RSA-SHA256 signature checks out for data, key, signature,
  given that the key parsed. -/
  sigValid : Buffer → Buffer → Buffer → Bool

/-- Node `crypto.verify("sha256", data, publicKey, signature)`: throws when
the public key cannot be parsed (Node routes the key argument through
`createPublicKey`, which throws on malformed input such as
`error:0909006C:PEM routines:get_name:no start line`); otherwise returns a
boolean, in particular `false` for a malformed or mismatched signature. -/
def cryptoVerify (prims : CryptoPrims) (data publicKey signature : Buffer) :
    Except String Bool :=
  if keyWellFormed publicKey then Except.ok (prims.sigValid data publicKey signature)
  else Except.error "error:0909006C:PEM routines:get_name:no start line"

/-- The node's crypto engine, embedding `src/CryptoClient.ts`: the secrets
map from the `person` string to the stored Diffie-Hellman shared secret,
and `publics` records public key to person (JS `Map` with fresh `Buffer`
object keys: every `set` appends). -/
structure CryptoClient where
  id : String
  prims : CryptoPrims
  secrets : List (String × Buffer)
  publics : List (Buffer × String)
  /-- `this.rsa.publicKey.export(...)` as sent in HANDSHAKE messages. -/
  rsaPublicKeyPem : String
  /-- `this.dh.getPublicKey().toString("hex")` as sent in HANDSHAKE messages. -/
  dhPublicKeyHex : String

/-- `CryptoClient.handshake(person, publicKey)`: computes the shared secret
from the peer public key (propagating a `computeSecret` throw) and stores
it with `Map.set` semantics under `person`; also records the public key. -/
def CryptoClient.handshake (c : CryptoClient) (person : String) (publicKey : Buffer) :
    Except String CryptoClient := do
  let secret ← c.prims.dhComputeSecret publicKey
  Except.ok { c with
    secrets := setKey person secret c.secrets
    publics := (publicKey, person) :: c.publics }

/-- `CryptoClient.encrypt(person, data)`: requires a stored secret for
`person` (throws otherwise), hashes it into the AES key, draws an IV and
returns the `\x7b encrypted, iv, tag \x7d` record. -/
def CryptoClient.encrypt (c : CryptoClient) (person : String) (data : String) :
    Except String (String × String × String) :=
  match lookupKey person c.secrets with
  | none => Except.error "A handshake with this person has not been completed yet"
  | some secret =>
    let key := c.prims.sha256 secret
    let iv := c.prims.randomIV
    Except.ok (c.prims.aeadEncrypt key iv data, bufferToHex iv, c.prims.aeadTag key iv data)

/-- `CryptoClient.decrypt(person, data, iv, tag)`: requires a stored
secret, then builds buffers from `iv` and `tag` (throwing when either is
not a string, e.g. `undefined` at a call site that omits the argument),
requires string ciphertext for `decipher.update`, and authenticates. -/
def CryptoClient.decrypt (c : CryptoClient) (person : String)
    (data iv tag : JSVal) : Except String String := do
  let secret ←
    match lookupKey person c.secrets with
    | none => Except.error "A handshake with this person has not been completed yet"
    | some s => Except.ok s
  let key := c.prims.sha256 secret
  let ivBuf ← bufferFromHexVal iv
  let tagBuf ← bufferFromHexVal tag
  let ciphertext ←
    match data with
    | JSVal.jstr s => Except.ok s
    | _ => Except.error "TypeError ERR_INVALID_ARG_TYPE"
  c.prims.aeadDecrypt key ivBuf tagBuf ciphertext

/-- `CryptoClient.verify(data, publicKey, signature)`: calls
`Crypto.verify` with no exception handling of its own, then branches on
the boolean (the two branches only differ in logging). -/
def CryptoClient.verify (c : CryptoClient) (data publicKey signature : Buffer) :
    Except String Bool := do
  let isValid ← cryptoVerify c.prims data publicKey signature
  if isValid then Except.ok true else Except.ok false

/-- The node configuration fields the core reads (`src/config.ts`). -/
structure Config where
  peerName : String
  host : String
  port : Int
  verbose : Bool
deriving DecidableEq, Repr

/-- A peer descriptor as carried by GET_PEERS_RESPONSE and ANNOUNCE_PEER
(`IPeer` in `types/TWSMessage.ts`). -/
structure IPeer where
  url : String
  id : String
  rsaPublicKey : String
  dhPublicKey : String
deriving DecidableEq, Repr

/-- One connection handler (`SocketHandler` instance state).  Fields that
TypeScript declares optional (set only after the handshake, or only for
announced outbound dials) are `Option`s; `port` is `Option Int` because
`j.data.port` can be absent and `parseInt` can fail. -/
structure Conn where
  socketId : String
  ip : String
  port : Option Int
  isIncoming : Bool
  announcedBy : Option String
  announcedId : Option String
  announcedRSAPublicKey : Option String
  announcedDHPublicKey : Option String
  id : Option String
  peerName : Option String
  rsaPublicKey : Option String
  dhPublicKey : Option String
  state : EWSState
deriving DecidableEq, Repr

/-- The `data` object of a decrypted protocol message: the union of the
fields the handlers read, each absent (`undefined`) unless the sender set
it.  `success` and `verification` stay dynamically typed because the
handlers compare them with `===` / pass them to `Buffer.from`. -/
structure WSData where
  success : JSVal
  error : Option String
  id : Option String
  name : Option String
  rsaPublicKey : Option String
  dhPublicKey : Option String
  port : Option Int
  verification : JSVal
  peers : List IPeer
  url : Option String
  message : Option String
  from_ : Option String
deriving DecidableEq, Repr

/-- An all-`undefined` `data` object. -/
def WSData.empty : WSData :=
  { success := JSVal.undef, error := none, id := none, name := none,
    rsaPublicKey := none, dhPublicKey := none, port := none,
    verification := JSVal.undef, peers := [], url := none, message := none,
    from_ := none }

/-- An outbound protocol message handed to `send`. -/
structure OutMsg where
  command : EWSCommand
  data : WSData
deriving DecidableEq, Repr

/-- Registry- and network-level side effects a handler requests beyond its
own sends: the `ready` announce fan-out, outbound dials
(`PeerManager.connectToPeer`), a broadcast, and local delivery of an
application message. -/
inductive Effect where
  | announceSelf : String → Effect
  | dial : Option String → String → Option String → Option String → Option String → Effect
  | broadcast : String → Effect
  | deliver : Option String → Option String → Effect
deriving DecidableEq, Repr

/-- Result of dispatching one inbound command: either the connection is
disconnected with a close code (and purged via `disconnectPeer`), or
processing yields updated connection and crypto state plus the messages
sent and effects requested, in order. -/
inductive Action where
  | disconnect : Nat → Action
  | result : Conn → CryptoClient → List OutMsg → List Effect → Action

/-- The peer registry (`PeerManager`): connections by socket id, plus the
URL and authenticated-peer-id indices. -/
structure PeerManager where
  peers : List (String × Conn)
  urlToSocketId : List (String × String)
  idToSocketId : List (String × String)

/-- `${peer.port}` in a template literal: JavaScript prints `undefined`
for an absent value. -/
def jsPortStr : Option Int → String
  | some n => toString n
  | none => "undefined"

/-- The URL `ws://ip:port` reconstructed from a connection's current
fields, as `removePeer` and the peer-list snapshots build it. -/
def connUrl (p : Conn) : String := "ws://" ++ p.ip ++ ":" ++ jsPortStr p.port

/-- `url.split("//").pop().split(":")` host/port extraction performed by
`connectToPeer` (with `parseInt`, which yields no number on garbage). -/
def parseWsUrl (url : String) : String × Option Int :=
  let rest := (url.splitOn "//").getLastD ""
  let parts := rest.splitOn ":"
  (parts.headD "", parts[1]? >>= String.toInt?)

/-- `PeerManager.handleConnection`: an accepted socket is registered under
a fresh socket id; no URL or peer-id index entry is made. -/
def PeerManager.handleConnection (m : PeerManager) (socketId ip : String)
    (port : Option Int) : PeerManager :=
  let conn : Conn :=
    { socketId := socketId, ip := ip, port := port, isIncoming := true,
      announcedBy := none, announcedId := none, announcedRSAPublicKey := none,
      announcedDHPublicKey := none, id := none, peerName := none,
      rsaPublicKey := none, dhPublicKey := none, state := EWSState.CREATED }
  { m with peers := setKey socketId conn m.peers }

/-- `PeerManager.connectToPeer(url, type, announcer?, rsa?, dh?, id?)`:
ignored when the URL is already indexed, or (for an announced dial with a
truthy expected id) when the id is already indexed; otherwise the dialled
connection is registered in `peers`, `urlToSocketId`, and — when an
expected id was announced — `idToSocketId`.  The fresh socket id is a
parameter, standing for `Crypto.randomBytes(8)`. -/
def PeerManager.connectToPeer (m : PeerManager) (url : String) (announced : Bool)
    (announcer : Option String) (rsaPublicKey dhPublicKey id : Option String)
    (newSocketId : String) : PeerManager :=
  if (lookupKey url m.urlToSocketId).isSome then m
  else if announced && truthyStr id &&
      (match id with
       | some i => (lookupKey i m.idToSocketId).isSome
       | none => false) then m
  else
    let (ip, port) := parseWsUrl url
    let conn : Conn :=
      { socketId := newSocketId, ip := ip, port := port, isIncoming := false,
        announcedBy := announcer, announcedId := id,
        announcedRSAPublicKey := rsaPublicKey, announcedDHPublicKey := dhPublicKey,
        id := none, peerName := none, rsaPublicKey := none, dhPublicKey := none,
        state := EWSState.CREATED }
    { peers := setKey newSocketId conn m.peers
      urlToSocketId := setKey url newSocketId m.urlToSocketId
      idToSocketId :=
        match id with
        | some i => setKey i newSocketId m.idToSocketId
        | none => m.idToSocketId }

/-- `PeerManager.removePeer(socketId)`: when the socket id is registered,
deletes it from `peers` and deletes the `ws://ip:port` URL (rebuilt from
the connection's *current* fields) from `urlToSocketId`; `idToSocketId` is
not touched. -/
def PeerManager.removePeer (m : PeerManager) (socketId : String) : PeerManager :=
  match lookupKey socketId m.peers with
  | none => m
  | some peer =>
    { m with
      peers := eraseKey peer.socketId m.peers
      urlToSocketId := eraseKey (connUrl peer) m.urlToSocketId }

/-- `PeerManager.disconnectPeer(socketId, code)`: warns and leaves the
registry alone for an unknown socket id; otherwise closes the transport
with `code` and calls `removePeer`. -/
def PeerManager.disconnectPeer (m : PeerManager) (socketId : String) (_code : Nat) :
    PeerManager :=
  match lookupKey socketId m.peers with
  | none => m
  | some _ => m.removePeer socketId

/-- `PeerManager.getConnectedPeers`: URLs of connections that are READY
with truthy `id` and `dhPublicKey` (note: no `rsaPublicKey` condition). -/
def PeerManager.getConnectedPeers (m : PeerManager) : List String :=
  (m.peers.filter (fun p =>
      p.2.state = EWSState.READY ∧ truthyStr p.2.id ∧ truthyStr p.2.dhPublicKey)).map
    (fun p => connUrl p.2)

/-- `PeerManager.getReadyPeers`: descriptors of connections that are READY
with truthy `id`, `dhPublicKey` and `rsaPublicKey`. -/
def PeerManager.getReadyPeers (m : PeerManager) : List IPeer :=
  (m.peers.filter (fun p =>
      p.2.state = EWSState.READY ∧ truthyStr p.2.id ∧ truthyStr p.2.dhPublicKey ∧
        truthyStr p.2.rsaPublicKey)).map
    (fun p =>
      { url := connUrl p.2, id := p.2.id.getD "", dhPublicKey := p.2.dhPublicKey.getD "",
        rsaPublicKey := p.2.rsaPublicKey.getD "" })

/-- `PeerManager.announcePeer(socketId)`: throws for an unknown socket id;
otherwise iterates `this.peers.values()` with a loop variable that
*shadows* the looked-up peer, sending to every other READY connection with
truthy keys and id an ANNOUNCE_PEER whose data is built from the loop
variable — that is, each recipient is sent its own descriptor.  Returns
the (recipient socket id, message) pairs in order. -/
def PeerManager.announcePeer (m : PeerManager) (socketId : String) :
    Except String (List (String × OutMsg)) :=
  match lookupKey socketId m.peers with
  | none => Except.error "PEER_NOT_CONNECTED"
  | some _ =>
    Except.ok ((m.peers.filter (fun p =>
        p.2.socketId ≠ socketId ∧ p.2.state = EWSState.READY ∧
          truthyStr p.2.dhPublicKey ∧ truthyStr p.2.rsaPublicKey ∧ truthyStr p.2.id)).map
      (fun p =>
        (p.1,
         { command := EWSCommand.ANNOUNCE_PEER,
           data := { WSData.empty with
             url := some (connUrl p.2), dhPublicKey := p.2.dhPublicKey,
             rsaPublicKey := p.2.rsaPublicKey, id := p.2.id } })))

/-- The node's own listen URLs, as excluded by the peer-list filters:
`ws://127.0.0.1:port` and `ws://0.0.0.0:port`. -/
def selfUrls (cfg : Config) : List String :=
  ["ws://127.0.0.1:" ++ toString cfg.port, "ws://0.0.0.0:" ++ toString cfg.port]

/-- The HANDSHAKE message a node sends about itself (identical payload in
the `open` handler for outbound sockets and the `handshakeStarted`
listener for inbound ones). -/
def handshakeInfoMsg (cfg : Config) (c : CryptoClient) : OutMsg :=
  { command := EWSCommand.HANDSHAKE,
    data := { WSData.empty with
      id := some c.id, name := some cfg.peerName,
      rsaPublicKey := some c.rsaPublicKeyPem, dhPublicKey := some c.dhPublicKeyHex,
      port := some cfg.port } }

/-- The `try` block of the HANDSHAKE case: `Buffer.from(dhPublicKey,
"hex")` (throws on `undefined`), `client.handshake` (may throw from
`computeSecret`), the identity-field assignments and the transition to
HANDSHAKE_STARTED, and the encryption of the fixed verification string.
Every throwing step precedes the assignments, so a caught failure leaves
the connection unchanged. -/
def handshakeTry (conn : Conn) (c : CryptoClient) (d : WSData) :
    Except String (Conn × CryptoClient × String × String × String) := do
  let dhBuf ←
    match d.dhPublicKey with
    | some s => Except.ok (bufferFromHex s)
    | none => Except.error "TypeError ERR_INVALID_ARG_TYPE"
  let c2 ← c.handshake conn.socketId dhBuf
  let conn2 := { conn with
    id := d.id, peerName := d.name, rsaPublicKey := d.rsaPublicKey,
    dhPublicKey := d.dhPublicKey, port := d.port,
    state := EWSState.HANDSHAKE_STARTED }
  let enc ← c2.encrypt conn.socketId "cryptoverification"
  Except.ok (conn2, c2, enc)

/-- The `try` block of the HANDSHAKE_VERIFICATION case: decrypt the
verification payload — note the source invokes the four-argument
`decrypt(person, data, iv, tag)` with only two arguments, so `iv` and
`tag` are `undefined` — and require the agreed constant string. -/
def verificationTry (conn : Conn) (c : CryptoClient) (d : WSData) :
    Except String Unit := do
  let s ← c.decrypt conn.socketId d.verification JSVal.undef JSVal.undef
  if s = "cryptoverification" then Except.ok () else Except.error "VERIFICATION_INVALID"

/-- A HANDSHAKE_VERIFICATION error reply, as sent by the `catch` blocks of
both the HANDSHAKE and the HANDSHAKE_VERIFICATION cases. -/
def verificationErrorReply (msg : String) : OutMsg :=
  { command := EWSCommand.HANDSHAKE_VERIFICATION,
    data := { WSData.empty with success := JSVal.jbool false, error := some msg } }

/-- `pm.idToSocketId.has(j.data.id)`: `Map.has(undefined)` is false when
no binding for the literal `undefined` key exists (none ever does). -/
def idIndexed (reg : PeerManager) : Option String → Bool
  | some i => (lookupKey i reg.idToSocketId).isSome
  | none => false

/-- Whether `peer.url` is the node's own listen address or an already
connected URL (the de-duplication filter; `includes(undefined)` is
false). -/
def urlKnown (cfg : Config) (reg : PeerManager) : Option String → Bool
  | some u => decide (u ∈ selfUrls cfg ++ reg.getConnectedPeers)
  | none => false

/-- The `switch (j.command)` of `SocketHandler.onMessage`, for a message
that survived decoding, signature verification, the shape checks and the
`success` filter.  `reg` is the live registry (`PeerManager.get()`). -/
def dispatch (cfg : Config) (reg : PeerManager) (conn : Conn) (c : CryptoClient) :
    EWSCommand → WSData → Action
  | EWSCommand.HANDSHAKE, d =>
    if conn.state ≠ EWSState.CREATED then Action.disconnect 1003
    else if (conn.ip = "127.0.0.1" ∨ conn.ip = "localhost") ∧ d.port = some cfg.port then
      Action.disconnect 1003
    else if truthyStr conn.announcedId ∧ conn.announcedId ≠ d.id then
      Action.disconnect 1003
    else if truthyStr conn.announcedRSAPublicKey ∧ conn.announcedRSAPublicKey ≠ d.rsaPublicKey then
      Action.disconnect 1003
    else if truthyStr conn.announcedDHPublicKey ∧ conn.announcedDHPublicKey ≠ d.dhPublicKey then
      Action.disconnect 1003
    else if conn.isIncoming ∧ idIndexed reg d.id then
      Action.disconnect 1000
    else
      match handshakeTry conn c d with
      | Except.ok (conn2, c2, e, i, t) =>
        Action.result conn2 c2
          ((if conn.isIncoming then [handshakeInfoMsg cfg c] else []) ++
            [{ command := EWSCommand.HANDSHAKE_VERIFICATION,
               data := { WSData.empty with
                 success := JSVal.jbool true, verification := JSVal.encObj e i t } }])
          []
      | Except.error msg => Action.result conn c [verificationErrorReply msg] []
  | EWSCommand.HANDSHAKE_VERIFICATION, d =>
    if conn.state ≠ EWSState.HANDSHAKE_STARTED then Action.disconnect 1003
    else
      match verificationTry conn c d with
      | Except.ok _ =>
        Action.result { conn with state := EWSState.HANDSHAKE_VALIDATED } c
          [{ command := EWSCommand.HANDSHAKE_ACK,
             data := { WSData.empty with success := JSVal.jbool true } }]
          []
      | Except.error msg => Action.result conn c [verificationErrorReply msg] []
  | EWSCommand.HANDSHAKE_ACK, _ =>
    if conn.state ≠ EWSState.HANDSHAKE_VALIDATED then Action.disconnect 1003
    else
      Action.result { conn with state := EWSState.READY } c
        [{ command := EWSCommand.GET_PEERS, data := WSData.empty }]
        [Effect.announceSelf conn.socketId]
  | EWSCommand.GET_PEERS, _ =>
    if conn.state ≠ EWSState.READY then Action.disconnect 1003
    else
      Action.result conn c
        [{ command := EWSCommand.GET_PEERS_RESPONSE,
           data := { WSData.empty with
             success := JSVal.jbool true, peers := reg.getReadyPeers } }]
        []
  | EWSCommand.GET_PEERS_RESPONSE, d =>
    if conn.state = EWSState.READY ∧ truthyStr conn.id then
      let known := selfUrls cfg ++ reg.getConnectedPeers
      let peers := d.peers.filter (fun p => p.url ∉ known)
      Action.result conn c []
        (Effect.broadcast "Connecting to all peers..." ::
          peers.map (fun p =>
            Effect.dial (some p.url) (conn.id.getD "") (some p.rsaPublicKey)
              (some p.dhPublicKey) (some p.id)))
    else Action.disconnect 1003
  | EWSCommand.ANNOUNCE_PEER, d =>
    if conn.state = EWSState.READY ∧ truthyStr conn.id then
      if urlKnown cfg reg d.url then
        Action.result conn c [] []
      else
        Action.result conn c []
          [Effect.dial d.url (conn.id.getD "") d.rsaPublicKey d.dhPublicKey d.id]
    else Action.disconnect 1003
  | EWSCommand.SEND_MESSAGE, d =>
    if conn.state = EWSState.READY ∧ truthyStr conn.id then
      Action.result conn c [] [Effect.deliver conn.id d.message]
    else Action.disconnect 1003

/-- The guard each `case` of the `switch` places on the current connection
before acting, transcribed from the source: HANDSHAKE requires CREATED,
HANDSHAKE_VERIFICATION requires HANDSHAKE_STARTED, HANDSHAKE_ACK requires
HANDSHAKE_VALIDATED, GET_PEERS requires READY, and the remaining three
require READY with a truthy authenticated `id`. -/
def guardAccepts (conn : Conn) : EWSCommand → Bool
  | EWSCommand.HANDSHAKE => conn.state = EWSState.CREATED
  | EWSCommand.HANDSHAKE_VERIFICATION => conn.state = EWSState.HANDSHAKE_STARTED
  | EWSCommand.HANDSHAKE_ACK => conn.state = EWSState.HANDSHAKE_VALIDATED
  | EWSCommand.GET_PEERS => conn.state = EWSState.READY
  | EWSCommand.GET_PEERS_RESPONSE => conn.state = EWSState.READY && truthyStr conn.id
  | EWSCommand.ANNOUNCE_PEER => conn.state = EWSState.READY && truthyStr conn.id
  | EWSCommand.SEND_MESSAGE => conn.state = EWSState.READY && truthyStr conn.id

/-- Decoding of the inner payload of an inbound envelope (`onMessage`,
before `JSON.parse`): in state READY the source calls the four-argument
`client.decrypt` with only `(socketId, s.message)`, leaving `iv` and `tag`
`undefined`; in any other state the message is hex-decoded plaintext. -/
def onMessageDecode (c : CryptoClient) (conn : Conn) (sMessage : JSVal) :
    Except String String :=
  if conn.state = EWSState.READY then
    c.decrypt conn.socketId sMessage JSVal.undef JSVal.undef
  else do
    let b ← bufferFromHexVal sMessage
    Except.ok (bytesToStr b)

/-- The value `send` places in the `message` field of the outer envelope:
in state READY the full record returned by `encrypt` — ciphertext, IV and
tag together (propagating an `encrypt` throw) — otherwise the hex of the
plaintext JSON. -/
def sendEnvelopeMessage (c : CryptoClient) (state : EWSState) (socketId : String)
    (m : String) : Except String JSVal :=
  if state = EWSState.READY then
    (c.encrypt socketId m).map (fun r => JSVal.encObj r.1 r.2.1 r.2.2)
  else Except.ok (JSVal.jstr (bufferToHex (strToBytes m)))

/-- What becomes of a message that already passed parsing, signature
verification and the shape checks: dropped as an error report, dropped
because the socket is closing, or dispatched. -/
inductive MsgAction where
  | droppedErrorReport : MsgAction
  | droppedClosing : MsgAction
  | acted : Action → MsgAction

/-- The tail of `onMessage` after the `try` block: the `success` filter
(anything other than the literal `true` or absence is logged and
dropped), the socket-state check, then the `switch`. -/
def afterVerification (cfg : Config) (reg : PeerManager) (conn : Conn)
    (c : CryptoClient) (wsClosing : Bool) (cmd : EWSCommand) (d : WSData) : MsgAction :=
  if ¬(d.success = JSVal.jbool true ∨ d.success = JSVal.undef) then
    MsgAction.droppedErrorReport
  else if wsClosing then MsgAction.droppedClosing
  else MsgAction.acted (dispatch cfg reg conn c cmd d)

/-! ### Concrete instances used to evaluate the model -/

/-- A concrete instantiation of the external crypto primitives, used to
evaluate the model on explicit inputs (the structural claims under test do
not depend on the primitives' mathematical content). -/
def testPrims : CryptoPrims :=
  { dhComputeSecret := fun b => Except.ok b
    sha256 := fun b => b
    aeadEncrypt := fun _ _ s => s
    aeadTag := fun _ _ _ => "00"
    aeadDecrypt := fun _ _ _ s => Except.ok s
    randomIV := [0]
    sigValid := fun _ _ _ => true }

/-- A freshly constructed crypto client (no completed handshakes). -/
def testClient : CryptoClient :=
  { id := "self", prims := testPrims, secrets := [], publics := [],
    rsaPublicKeyPem := "-----BEGINkey", dhPublicKeyHex := "aa" }

/-- A concrete node configuration (the default port of `config.ts`). -/
def testConfig : Config :=
  { peerName := "node", host := "127.0.0.1", port := 8009, verbose := false }

/-- The empty registry. -/
def emptyPM : PeerManager := { peers := [], urlToSocketId := [], idToSocketId := [] }

/-- Registry sanity: each `peers` entry's connection carries the socket id
it is stored under (every registration site stores `context.socketId`
under `context.socketId`). -/
def PeerManager.keysMatch (m : PeerManager) : Prop :=
  ∀ p ∈ m.peers, p.2.socketId = p.1

/-- The crypto-state component of a dispatch outcome, when one exists. -/
def actionClientSecrets : Action → Option (List (String × Buffer))
  | Action.result _ c _ _ => some c.secrets
  | _ => none

/-! ### Association-list lemmas -/

theorem lookupKey_setKey_self {α : Type} (k : String) (v : α) (l : List (String × α)) :
    lookupKey k (setKey k v l) = some v := by
  induction l with
  | nil => simp [setKey, lookupKey]
  | cons p t ih =>
    by_cases h : p.1 = k
    · simp [setKey, h, lookupKey]
    · simp [setKey, h, lookupKey, ih]

theorem eraseKey_cons {α : Type} (k : String) (p : String × α) (t : List (String × α)) :
    eraseKey k (p :: t) = if p.1 = k then eraseKey k t else p :: eraseKey k t := by
  by_cases h : p.1 = k <;> simp [eraseKey, List.filter_cons, h]

theorem lookupKey_eraseKey_self {α : Type} (k : String) (l : List (String × α)) :
    lookupKey k (eraseKey k l) = none := by
  induction l with
  | nil => simp [eraseKey, lookupKey]
  | cons p t ih =>
    by_cases h : p.1 = k
    · simpa [eraseKey_cons, h] using ih
    · simpa [eraseKey_cons, h, lookupKey] using ih

theorem lookupKey_eraseKey_ne {α : Type} {k k' : String} (l : List (String × α))
    (h : k ≠ k') : lookupKey k (eraseKey k' l) = lookupKey k l := by
  induction l with
  | nil => simp [eraseKey, lookupKey]
  | cons p t ih =>
    by_cases hp : p.1 = k'
    · have hpk : p.1 ≠ k := by rw [hp]; exact fun hk => h hk.symm
      simp [eraseKey_cons, hp, lookupKey, hpk, ih, Ne.symm h]
    · by_cases hk : p.1 = k
      · simp [eraseKey_cons, hp, lookupKey, hk, h]
      · simp [eraseKey_cons, hp, lookupKey, hk, ih, h]

theorem lookupKey_mem {α : Type} {k : String} {v : α} {l : List (String × α)}
    (h : lookupKey k l = some v) : (k, v) ∈ l := by
  induction l with
  | nil => simp [lookupKey] at h
  | cons p t ih =>
    by_cases hp : p.1 = k
    · simp [lookupKey, hp] at h
      cases p with
      | mk a b =>
        simp only at hp
        subst hp
        subst h
        exact List.mem_cons_self _ _
    · simp [lookupKey, hp] at h
      exact List.mem_cons_of_mem _ (ih h)

/-- Any two-argument invocation of the four-argument `decrypt` — `iv` and
`tag` `undefined` — throws: either no secret is stored, or
`Buffer.from(undefined, "hex")` raises `ERR_INVALID_ARG_TYPE`. -/
theorem decrypt_undef_iv_tag_throws (c : CryptoClient) (person : String) (data : JSVal) :
    ∃ e, c.decrypt person data JSVal.undef JSVal.undef = Except.error e := by
  unfold CryptoClient.decrypt
  cases h : lookupKey person c.secrets with
  | none =>
    exact ⟨"A handshake with this person has not been completed yet",
      by simp [h, Bind.bind, Except.bind]⟩
  | some s =>
    exact ⟨"TypeError ERR_INVALID_ARG_TYPE",
      by simp [h, bufferFromHexVal, Bind.bind, Except.bind]⟩

/-- Outcome of the `try`/`catch` around envelope decoding in `onMessage`:
a throw anywhere in decoding (including `decrypt`) is caught, logged and
the message dropped; the connection is left as it was. -/
inductive EnvelopeOutcome where
  | droppedParseError : String → EnvelopeOutcome
  | verified : String → EnvelopeOutcome
deriving DecidableEq, Repr

/-- The decode stage of `onMessage` together with its `catch`. -/
def envelopeStage (c : CryptoClient) (conn : Conn) (v : JSVal) : EnvelopeOutcome :=
  match onMessageDecode c conn v with
  | Except.error e => EnvelopeOutcome.droppedParseError e
  | Except.ok s => EnvelopeOutcome.verified s

/-- A fresh incoming connection, as `handleConnection` registers it. -/
def connBase : Conn :=
  { socketId := "s1", ip := "9.9.9.9", port := some 4001, isIncoming := true,
    announcedBy := none, announcedId := none, announcedRSAPublicKey := none,
    announcedDHPublicKey := none, id := none, peerName := none,
    rsaPublicKey := none, dhPublicKey := none, state := EWSState.CREATED }

/-- A connection whose handshake has started (HANDSHAKE_STARTED, peer
identity recorded). -/
def connHS : Conn :=
  { connBase with
      state := EWSState.HANDSHAKE_STARTED, id := some "peerA",
      rsaPublicKey := some "r", dhPublicKey := some "bb" }

/-- A HANDSHAKE_VERIFICATION payload carrying the expected
`\x7b encrypted, iv, tag \x7d` verification object. -/
def dVerif : WSData :=
  { WSData.empty with
      success := JSVal.jbool true,
      verification := JSVal.encObj "aa" "bb" "cc" }

/-- A well-formed inbound HANDSHAKE payload from peer id `peerA`. -/
def dHandshake : WSData :=
  { WSData.empty with
      id := some "peerA", name := some "A",
      rsaPublicKey := some "r", dhPublicKey := some "bb", port := some 4001 }

/-- A registry that already holds a live connection `s0` authenticated as
`peerA`. -/
def regDup : PeerManager :=
  { peers := [("s0", { connBase with
      socketId := "s0", id := some "peerA",
      rsaPublicKey := some "r", dhPublicKey := some "bb", state := EWSState.READY })],
    urlToSocketId := [("ws://9.9.9.9:4001", "s0")],
    idToSocketId := [("peerA", "s0")] }

/-! ### C1 -/

/-- C1: the claim says that for every encrypted inbound envelope,
`decrypt` is invoked with the ciphertext and the IV and auth tag that
arrived alongside it in the payload.  The code instead invokes the
four-argument `decrypt` with only `(socketId, s.message)`, so `iv` and
`tag` are `undefined` and the decode of *every* inbound envelope in state
READY throws — for any client state and any arriving `message` value. -/
theorem C1_ready_inbound_decrypt_throws :
    ∀ (c : CryptoClient) (conn : Conn) (v : JSVal),
      ∃ e, onMessageDecode c { conn with state := EWSState.READY } v = Except.error e := by
  intro c conn v
  unfold onMessageDecode
  simpa using decrypt_undef_iv_tag_throws c conn.socketId v

/-! ### C2 -/

/-- C2 counterexample: in state HANDSHAKE_STARTED with a failing decrypt
(no stored secret here), the HANDSHAKE_VERIFICATION handler does not close
the connection with code 1003 — it answers with a
HANDSHAKE_VERIFICATION success:false reply and leaves connection and
client untouched. -/
theorem C2_decrypt_failure_not_fatal_cex :
    dispatch testConfig emptyPM connHS testClient EWSCommand.HANDSHAKE_VERIFICATION dVerif =
      Action.result connHS testClient
        [verificationErrorReply "A handshake with this person has not been completed yet"]
        [] ∧
    dispatch testConfig emptyPM connHS testClient EWSCommand.HANDSHAKE_VERIFICATION dVerif ≠
      Action.disconnect 1003 := by
  refine ⟨rfl, ?_⟩
  intro h
  rw [show dispatch testConfig emptyPM connHS testClient
      EWSCommand.HANDSHAKE_VERIFICATION dVerif =
      Action.result connHS testClient
        [verificationErrorReply "A handshake with this person has not been completed yet"]
        [] from rfl] at h
  exact Action.noConfusion h

/-- C2 (amended): a decrypt failure is never fatal.  In state
HANDSHAKE_STARTED every HANDSHAKE_VERIFICATION — its decrypt necessarily
failing — is answered with a success:false reply while connection and
client state are unchanged and no disconnect happens; and in state READY a
decode failure of the envelope itself is caught and the message dropped. -/
theorem C2_verification_failure_replied_not_fatal :
    ∀ (cfg : Config) (reg : PeerManager) (conn : Conn) (c : CryptoClient) (d : WSData),
      (conn.state = EWSState.HANDSHAKE_STARTED →
        ∃ e, dispatch cfg reg conn c EWSCommand.HANDSHAKE_VERIFICATION d =
          Action.result conn c [verificationErrorReply e] []) ∧
      (conn.state = EWSState.READY →
        ∀ v : JSVal, ∃ e, envelopeStage c conn v = EnvelopeOutcome.droppedParseError e) := by
  intro cfg reg conn c d
  constructor
  · intro h
    obtain ⟨e, he⟩ := decrypt_undef_iv_tag_throws c conn.socketId d.verification
    refine ⟨e, ?_⟩
    simp [dispatch, h, verificationTry, he, Bind.bind, Except.bind]
  · intro h v
    obtain ⟨e, he⟩ := decrypt_undef_iv_tag_throws c conn.socketId v
    exact ⟨e, by simp [envelopeStage, onMessageDecode, h, he]⟩

/-- Witness for C2: the amended behaviour at the concrete state of the
counterexample. -/
theorem C2_verification_failure_replied_not_fatal_witness :
    ∃ e, dispatch testConfig emptyPM connHS testClient EWSCommand.HANDSHAKE_VERIFICATION dVerif =
      Action.result connHS testClient [verificationErrorReply e] [] :=
  (C2_verification_failure_replied_not_fatal testConfig emptyPM connHS testClient dVerif).1 rfl

/-! ### C3 -/

/-- C3: connection state only moves forward — whenever dispatching an
inbound command yields an updated connection, its state's numeric value is
at least the previous one (CREATED → HANDSHAKE_STARTED →
HANDSHAKE_VALIDATED → READY, never backwards) — and any command arriving
in a state its guard does not accept is answered by termination with
protocol-violation code 1003, never silently ignored. -/
theorem C3_state_monotone_guard_fatal :
    ∀ (cfg : Config) (reg : PeerManager) (conn : Conn) (c : CryptoClient)
      (cmd : EWSCommand) (d : WSData),
      (∀ conn2 c2 sends effs,
        dispatch cfg reg conn c cmd d = Action.result conn2 c2 sends effs →
        conn.state.toNat ≤ conn2.state.toNat) ∧
      (guardAccepts conn cmd = false →
        dispatch cfg reg conn c cmd d = Action.disconnect 1003) := by
  intro cfg reg conn c cmd d
  cases cmd with
  | HANDSHAKE =>
    constructor
    · intro conn2 c2 sends effs h
      by_cases h1 : conn.state = EWSState.CREATED
      · rw [h1]
        exact Nat.zero_le _
      · simp [dispatch, h1] at h
    · intro hg
      simp [guardAccepts] at hg
      simp [dispatch, hg]
  | HANDSHAKE_VERIFICATION =>
    constructor
    · intro conn2 c2 sends effs h
      by_cases h1 : conn.state = EWSState.HANDSHAKE_STARTED
      · cases hv : verificationTry conn c d with
        | error e =>
          simp [dispatch, h1, hv] at h
          obtain ⟨h2, -⟩ := h
          subst h2
          exact Nat.le_refl _
        | ok u =>
          simp [dispatch, h1, hv] at h
          obtain ⟨h2, -⟩ := h
          subst h2
          simp [h1, EWSState.toNat]
      · simp [dispatch, h1] at h
    · intro hg
      simp [guardAccepts] at hg
      simp [dispatch, hg]
  | HANDSHAKE_ACK =>
    constructor
    · intro conn2 c2 sends effs h
      by_cases h1 : conn.state = EWSState.HANDSHAKE_VALIDATED
      · simp [dispatch, h1] at h
        obtain ⟨h2, -⟩ := h
        subst h2
        simp [h1, EWSState.toNat]
      · simp [dispatch, h1] at h
    · intro hg
      simp [guardAccepts] at hg
      simp [dispatch, hg]
  | GET_PEERS =>
    constructor
    · intro conn2 c2 sends effs h
      by_cases h1 : conn.state = EWSState.READY
      · simp [dispatch, h1] at h
        obtain ⟨h2, -⟩ := h
        subst h2
        exact Nat.le_refl _
      · simp [dispatch, h1] at h
    · intro hg
      simp [guardAccepts] at hg
      simp [dispatch, hg]
  | GET_PEERS_RESPONSE =>
    constructor
    · intro conn2 c2 sends effs h
      by_cases h1 : conn.state = EWSState.READY ∧ truthyStr conn.id
      · simp [dispatch, h1] at h
        obtain ⟨h2, -⟩ := h
        subst h2
        exact Nat.le_refl _
      · simp [dispatch, h1] at h
    · intro hg
      have h1 : ¬(conn.state = EWSState.READY ∧ truthyStr conn.id) := by
        intro hp
        simp [guardAccepts, hp.1, hp.2] at hg
      simp [dispatch, h1]
  | ANNOUNCE_PEER =>
    constructor
    · intro conn2 c2 sends effs h
      by_cases h1 : conn.state = EWSState.READY ∧ truthyStr conn.id
      · by_cases h2 : urlKnown cfg reg d.url
        · simp [dispatch, h1, h2] at h
          obtain ⟨h3, -⟩ := h
          subst h3
          exact Nat.le_refl _
        · simp [dispatch, h1, h2] at h
          obtain ⟨h3, -⟩ := h
          subst h3
          exact Nat.le_refl _
      · simp [dispatch, h1] at h
    · intro hg
      have h1 : ¬(conn.state = EWSState.READY ∧ truthyStr conn.id) := by
        intro hp
        simp [guardAccepts, hp.1, hp.2] at hg
      simp [dispatch, h1]
  | SEND_MESSAGE =>
    constructor
    · intro conn2 c2 sends effs h
      by_cases h1 : conn.state = EWSState.READY ∧ truthyStr conn.id
      · simp [dispatch, h1] at h
        obtain ⟨h2, -⟩ := h
        subst h2
        exact Nat.le_refl _
      · simp [dispatch, h1] at h
    · intro hg
      have h1 : ¬(conn.state = EWSState.READY ∧ truthyStr conn.id) := by
        intro hp
        simp [guardAccepts, hp.1, hp.2] at hg
      simp [dispatch, h1]

/-- Witness for C3: a GET_PEERS arriving on a freshly created connection
(guard requires READY) is terminated with code 1003. -/
theorem C3_state_monotone_guard_fatal_witness :
    dispatch testConfig emptyPM connBase testClient EWSCommand.GET_PEERS WSData.empty =
      Action.disconnect 1003 :=
  (C3_state_monotone_guard_fatal testConfig emptyPM connBase testClient
    EWSCommand.GET_PEERS WSData.empty).2 (by decide)

/-! ### C4 -/

/-- A duplicate inbound HANDSHAKE: a second connection from the same
remote claims the peer id `peerA` that `regDup` already maps to the live
socket `s0`. -/
def connDup : Conn := connBase

/-- C4 counterexample: the duplicate inbound HANDSHAKE is disconnected
with close code 1000 (normal closure), not with the protocol-violation
code 1003 the claim states. -/
theorem C4_duplicate_closed_with_1000_cex :
    dispatch testConfig regDup connDup testClient EWSCommand.HANDSHAKE dHandshake =
      Action.disconnect 1000 ∧ (1000 : Nat) ≠ 1003 :=
  ⟨rfl, by decide⟩

/-- C4 (amended): a second attempt with an already-mapped authenticated
peer id is rejected without disturbing the existing connection — an
outbound announced dial for that id is ignored before dialing, and a
duplicate inbound HANDSHAKE (arriving in CREATED, with no applicable
self-connect or announcement-mismatch guard) is disconnected with the
normal-closure code 1000 — and disconnecting one socket leaves every other
registry entry in place. -/
theorem C4_duplicate_rejected_amended :
    (∀ (m : PeerManager) (url : String) (announcer rsa dh : Option String)
       (i newSocketId : String),
      i ≠ "" → (lookupKey i m.idToSocketId).isSome →
      PeerManager.connectToPeer m url true announcer rsa dh (some i) newSocketId = m) ∧
    (∀ (cfg : Config) (reg : PeerManager) (conn : Conn) (c : CryptoClient)
       (d : WSData) (i : String),
      conn.state = EWSState.CREATED →
      conn.isIncoming = true →
      ¬((conn.ip = "127.0.0.1" ∨ conn.ip = "localhost") ∧ d.port = some cfg.port) →
      conn.announcedId = none →
      conn.announcedRSAPublicKey = none →
      conn.announcedDHPublicKey = none →
      d.id = some i →
      (lookupKey i reg.idToSocketId).isSome →
      dispatch cfg reg conn c EWSCommand.HANDSHAKE d = Action.disconnect 1000) ∧
    (∀ (m : PeerManager) (sid other : String) (code : Nat),
      m.keysMatch → other ≠ sid →
      lookupKey other (PeerManager.disconnectPeer m sid code).peers =
        lookupKey other m.peers) := by
  refine ⟨?_, ?_, ?_⟩
  · intro m url announcer rsa dh i newSocketId hi hlook
    unfold PeerManager.connectToPeer
    by_cases hurl : (lookupKey url m.urlToSocketId).isSome
    · simp [hurl]
    · simp [hurl, truthyStr, hi, hlook]
  · intro cfg reg conn c d i h1 h2 h3 h4 h5 h6 h7 h8
    simp [dispatch, h1, h3, h4, h5, h6, truthyStr, h2, idIndexed, h7, h8]
  · intro m sid other code hwf hne
    unfold PeerManager.disconnectPeer
    cases hp : lookupKey sid m.peers with
    | none => rfl
    | some peer =>
      have hsid : peer.socketId = sid := hwf (sid, peer) (lookupKey_mem hp)
      unfold PeerManager.removePeer
      simp [hp, hsid]
      exact lookupKey_eraseKey_ne m.peers hne

/-- Witness for C4: the amended behaviour at the concrete duplicate of the
counterexample, plus an ignored duplicate outbound dial. -/
theorem C4_duplicate_rejected_amended_witness :
    PeerManager.connectToPeer regDup "ws://9.9.9.8:4000" true (some "ann")
        (some "r") (some "bb") (some "peerA") "s9" = regDup ∧
    dispatch testConfig regDup connDup testClient EWSCommand.HANDSHAKE dHandshake =
      Action.disconnect 1000 :=
  ⟨C4_duplicate_rejected_amended.1 regDup "ws://9.9.9.8:4000" (some "ann")
      (some "r") (some "bb") "peerA" "s9" (by decide) (by decide),
   C4_duplicate_rejected_amended.2.1 testConfig regDup connDup testClient dHandshake
      "peerA" rfl rfl (by decide) rfl rfl rfl rfl (by decide)⟩

/-! ### C5 -/

/-- The registry after dialing one announced peer: `s1` is registered in
all three maps. -/
def regOne : PeerManager :=
  PeerManager.connectToPeer emptyPM "ws://9.9.9.9:4000" true (some "ann")
    (some "r") (some "bb") (some "peerA") "s1"

/-- C5 counterexample: after removing the only connection, the peer-id
index still maps `peerA` to the removed socket `s1` while `connections` no
longer holds `s1` — removal is not atomic across the three maps and the
stale `peer_index` entry violates the claimed invariant. -/
theorem C5_registry_removal_stale_peer_index_cex :
    lookupKey "peerA" (PeerManager.removePeer regOne "s1").idToSocketId = some "s1" ∧
    lookupKey "s1" (PeerManager.removePeer regOne "s1").peers = none :=
  ⟨rfl, rfl⟩

/-- C5 (amended): removal cleans `connections` and the URL index entry for
the connection's current `ws://ip:port`, but never touches the peer-id
index, which may therefore keep stale entries. -/
theorem C5_removal_partial_amended :
    ∀ (m : PeerManager) (sid : String),
      (PeerManager.removePeer m sid).idToSocketId = m.idToSocketId ∧
      (m.keysMatch → lookupKey sid (PeerManager.removePeer m sid).peers = none) ∧
      (∀ p, lookupKey sid m.peers = some p →
        lookupKey (connUrl p) (PeerManager.removePeer m sid).urlToSocketId = none) := by
  intro m sid
  refine ⟨?_, ?_, ?_⟩
  · unfold PeerManager.removePeer
    cases hp : lookupKey sid m.peers <;> rfl
  · intro hwf
    unfold PeerManager.removePeer
    cases hp : lookupKey sid m.peers with
    | none => simp [hp]
    | some peer =>
      have hsid : peer.socketId = sid := hwf (sid, peer) (lookupKey_mem hp)
      simp [hp, hsid, lookupKey_eraseKey_self]
  · intro p hp
    unfold PeerManager.removePeer
    simp [hp, lookupKey_eraseKey_self]

/-- Witness for C5: the amended removal behaviour evaluated on the
concrete one-connection registry. -/
theorem C5_removal_partial_amended_witness :
    (PeerManager.removePeer regOne "s1").idToSocketId = regOne.idToSocketId ∧
    lookupKey "s1" (PeerManager.removePeer regOne "s1").peers = none :=
  ⟨(C5_removal_partial_amended regOne "s1").1,
   (C5_removal_partial_amended regOne "s1").2.1 (by
      intro p hp
      simp only [regOne, PeerManager.connectToPeer, emptyPM] at hp
      simp [lookupKey, setKey, parseWsUrl] at hp
      subst hp
      rfl)⟩

/-! ### C6 -/

/-- C6: an inbound HANDSHAKE whose remote address is loopback (127.0.0.1
or localhost) and whose payload claims the node's own configured port is
disconnected with protocol-violation code 1003 regardless of the current
state (the CREATED-state guard fires with the same code otherwise), and
disconnecting purges the socket from the registry. -/
theorem C6_self_connect_rejected :
    ∀ (cfg : Config) (reg : PeerManager) (conn : Conn) (c : CryptoClient) (d : WSData),
      (conn.ip = "127.0.0.1" ∨ conn.ip = "localhost") →
      d.port = some cfg.port →
      dispatch cfg reg conn c EWSCommand.HANDSHAKE d = Action.disconnect 1003 ∧
      (∀ m : PeerManager, m.keysMatch →
        lookupKey conn.socketId (PeerManager.disconnectPeer m conn.socketId 1003).peers = none) := by
  intro cfg reg conn c d hip hport
  constructor
  · by_cases h1 : conn.state = EWSState.CREATED
    · simp [dispatch, h1, hip, hport]
    · simp [dispatch, h1]
  · intro m hwf
    unfold PeerManager.disconnectPeer
    cases hp : lookupKey conn.socketId m.peers with
    | none => simp [hp]
    | some peer =>
      have hsid : peer.socketId = conn.socketId := hwf (conn.socketId, peer) (lookupKey_mem hp)
      unfold PeerManager.removePeer
      simp [hp, hsid, lookupKey_eraseKey_self]

/-- A loopback connection claiming our configured port. -/
def connLoopback : Conn := { connBase with ip := "127.0.0.1" }

/-- Witness for C6: the concrete loopback HANDSHAKE claiming port 8009 is
disconnected with 1003. -/
theorem C6_self_connect_rejected_witness :
    dispatch testConfig emptyPM connLoopback testClient EWSCommand.HANDSHAKE
        { dHandshake with port := some 8009 } = Action.disconnect 1003 ∧
    lookupKey connLoopback.socketId
        (PeerManager.disconnectPeer regDup connLoopback.socketId 1003).peers = none :=
  ⟨(C6_self_connect_rejected testConfig emptyPM connLoopback testClient
      { dHandshake with port := some 8009 } (Or.inl rfl) rfl).1,
   (C6_self_connect_rejected testConfig emptyPM connLoopback testClient
      { dHandshake with port := some 8009 } (Or.inl rfl) rfl).2 regDup (by
        intro p hp
        simp [regDup, lookupKey] at hp
        subst hp
        rfl)⟩

/-! ### C7 -/

/-- The peer being announced: socket `a`, authenticated as `idA` at
`ws://1.1.1.1:1111`. -/
def connA : Conn :=
  { connBase with
      socketId := "a", ip := "1.1.1.1", port := some 1111, id := some "idA",
      dhPublicKey := some "da", rsaPublicKey := some "ra", state := EWSState.READY }

/-- A second READY connection, socket `b`, authenticated as `idB` at
`ws://2.2.2.2:2222`. -/
def connB : Conn :=
  { connBase with
      socketId := "b", ip := "2.2.2.2", port := some 2222, id := some "idB",
      dhPublicKey := some "db", rsaPublicKey := some "rb", state := EWSState.READY }

/-- A registry holding both `a` and `b`. -/
def regAB : PeerManager :=
  { peers := [("a", connA), ("b", connB)], urlToSocketId := [], idToSocketId := [] }

/-- C7: announcing socket `a` is claimed to send `a`'s descriptor to every
other READY connection.  The loop variable of `announcePeer` shadows the
looked-up peer, so recipient `b` is instead sent its *own* descriptor
(`idB` at `ws://2.2.2.2:2222`), which differs from `a`'s in every field. -/
theorem C7_announce_sends_own_descriptor :
    PeerManager.announcePeer regAB "a" =
      Except.ok [("b",
        { command := EWSCommand.ANNOUNCE_PEER,
          data := { WSData.empty with
            url := some "ws://2.2.2.2:2222", dhPublicKey := some "db",
            rsaPublicKey := some "rb", id := some "idB" } })] ∧
    some "ws://2.2.2.2:2222" ≠ some (connUrl connA) ∧
    some "idB" ≠ connA.id :=
  ⟨rfl, by decide, by decide⟩

/-! ### C8 -/

/-- C8 counterexample: a successful inbound HANDSHAKE authenticated as
`peerA` on socket `s1` stores the computed shared secret under the socket
id `s1` — the call site passes `this.socketId` — and no entry exists under
the authenticated peer id `peerA`. -/
theorem C8_secret_keyed_by_socket_id_cex :
    (actionClientSecrets
        (dispatch testConfig emptyPM { connBase with isIncoming := false } testClient
          EWSCommand.HANDSHAKE dHandshake)).map
      (fun s => (lookupKey "s1" s, lookupKey "peerA" s)) =
      some (some [187], none) ∧
    dHandshake.id = some "peerA" ∧
    connBase.socketId = "s1" ∧ ("s1" : String) ≠ "peerA" :=
  ⟨rfl, rfl, rfl, by decide⟩

/-- Unfolding of a successful `CryptoClient.handshake`. -/
theorem handshake_ok {c : CryptoClient} {person : String} {pk s : Buffer}
    (h : c.prims.dhComputeSecret pk = Except.ok s) :
    c.handshake person pk = Except.ok { c with
      secrets := setKey person s c.secrets
      publics := (pk, person) :: c.publics } := by
  unfold CryptoClient.handshake
  rw [h]
  rfl

/-- C8 (amended): `handshake` computes the shared secret from the peer's
exchange public key and stores it keyed by the string the caller passes —
at the protocol call site the connection's socket id, not the
authenticated peer id (the derived AES key is hashed from it at
encrypt/decrypt time); a second call for the same key does not fail but
overwrites the stored secret, last call wins. -/
theorem C8_handshake_overwrites_amended :
    ∀ (c : CryptoClient) (person : String) (pk1 pk2 s1 s2 : Buffer),
      c.prims.dhComputeSecret pk1 = Except.ok s1 →
      c.prims.dhComputeSecret pk2 = Except.ok s2 →
      ∃ c1 c2, c.handshake person pk1 = Except.ok c1 ∧
        c1.handshake person pk2 = Except.ok c2 ∧
        lookupKey person c1.secrets = some s1 ∧
        lookupKey person c2.secrets = some s2 := by
  intro c person pk1 pk2 s1 s2 h1 h2
  exact ⟨_, _, handshake_ok h1, handshake_ok h2,
    lookupKey_setKey_self person s1 c.secrets,
    lookupKey_setKey_self person s2 _⟩

/-- Witness for C8: two successive handshakes with the same person on the
concrete client; the second secret wins. -/
theorem C8_handshake_overwrites_amended_witness :
    ∃ c1 c2, testClient.handshake "p" [1] = Except.ok c1 ∧
      c1.handshake "p" [2] = Except.ok c2 ∧
      lookupKey "p" c1.secrets = some [1] ∧
      lookupKey "p" c2.secrets = some [2] :=
  C8_handshake_overwrites_amended testClient "p" [1] [2] [1] [2] rfl rfl

/-! ### C9 -/

/-- C9 counterexample: `verify` called with a malformed public key (an
empty buffer, which Node key parsing rejects) does not return false — the
underlying library throw propagates out of `verify`, since the wrapper
installs no exception handling. -/
theorem C9_verify_throws_on_malformed_key_cex :
    CryptoClient.verify testClient (strToBytes "m") [] [] =
      Except.error "error:0909006C:PEM routines:get_name:no start line" :=
  rfl

/-- C9 (amended): `verify` returns a boolean — never throws — whenever the
public key is well formed (a malformed or mismatched signature then yields
the library's boolean, not an exception), but when the public key itself
cannot be parsed the underlying `Crypto.verify` throw propagates out of
`verify` unhandled (the protocol call site relies on its surrounding
`try`/`catch` for that case). -/
theorem C9_verify_wellformed_key_total_amended :
    ∀ (c : CryptoClient) (data pk sig : Buffer),
      (keyWellFormed pk = true →
        c.verify data pk sig = Except.ok (c.prims.sigValid data pk sig)) ∧
      (∀ e, cryptoVerify c.prims data pk sig = Except.error e →
        c.verify data pk sig = Except.error e) := by
  intro c data pk sig
  constructor
  · intro h
    unfold CryptoClient.verify cryptoVerify
    rw [if_pos h]
    cases hb : c.prims.sigValid data pk sig <;> simp [Bind.bind, Except.bind, hb]
  · intro e he
    unfold CryptoClient.verify
    rw [he]
    rfl

/-- Witness for C9: on a well-formed PEM key the concrete client's
`verify` returns a boolean. -/
theorem C9_verify_wellformed_key_total_amended_witness :
    CryptoClient.verify testClient (strToBytes "m") (strToBytes "-----BEGINkey") [] =
      Except.ok (testClient.prims.sigValid (strToBytes "m") (strToBytes "-----BEGINkey") []) :=
  (C9_verify_wellformed_key_total_amended testClient (strToBytes "m")
    (strToBytes "-----BEGINkey") []).1 (by decide)

/-! ### C10 -/

/-- C10: after signature verification and the shape checks, any payload
whose `data.success` is neither the literal `true` nor absent — `false`,
`0`, `null`, a string, anything else — is logged and dropped before the
socket-state check and the `switch`: it is never dispatched to the state
machine and causes no state transition. -/
theorem C10_success_filter_drops :
    ∀ (cfg : Config) (reg : PeerManager) (conn : Conn) (c : CryptoClient)
      (wsClosing : Bool) (cmd : EWSCommand) (d : WSData),
      d.success ≠ JSVal.jbool true →
      d.success ≠ JSVal.undef →
      afterVerification cfg reg conn c wsClosing cmd d = MsgAction.droppedErrorReport := by
  intro cfg reg conn c wsClosing cmd d h1 h2
  unfold afterVerification
  rw [if_pos]
  intro h
  cases h with
  | inl h => exact h1 h
  | inr h => exact h2 h

/-- Witness for C10: a HANDSHAKE_ACK error report carrying success:false
is dropped, not dispatched. -/
theorem C10_success_filter_drops_witness :
    afterVerification testConfig emptyPM connHS testClient false EWSCommand.HANDSHAKE_ACK
        { WSData.empty with success := JSVal.jbool false, error := some "VERIFICATION_INVALID" } =
      MsgAction.droppedErrorReport :=
  C10_success_filter_drops testConfig emptyPM connHS testClient false EWSCommand.HANDSHAKE_ACK
    { WSData.empty with success := JSVal.jbool false, error := some "VERIFICATION_INVALID" }
    (by decide) (by decide)

end CrypChat
